import Mathlib

/-!
Verification development for `src/libbpfcontain.rs` of bpfcontain-rs.

The file embeds, as Lean definitions:
* the `containerize` binding protocol (the engine result code, produced by the
  opaque privileged call `bindings::containerize`, is passed as an explicit
  argument; the match on it is translated branch by branch from the source);
* the five bitflags-generated flag-set types (the `bitflags!` macro of the
  `bitflags` crate, version 1.x, expands to a struct wrapping the underlying
  integer with `from_bits`, `from_bits_truncate`, `from_bits_unchecked`,
  `bits`, `union`, `intersection`, `contains`, and a derived all-zero
  `Default`); machine integers are modelled as `Nat`;
* the shared record types re-exported from `lib/bindings.rs` and marked
  `Plain` (raw byte reinterpretation).
-/

/-! Linux errno constants, as exposed by the `libc` crate. -/

namespace libc

def EAGAIN : Int := 11

def ENOENT : Int := 2

def EINVAL : Int := 22

end libc

/-- Error taxonomy of `containerize`: one constructor per `bail!` branch of
the source match, carrying the data interpolated into the message. -/
inductive ContainError where
  | transitionFailure
  | unknownContainer (container_id : Nat)
  | invalidState
  | unknownEngineError (code : Int)
deriving DecidableEq

/-- The formatted message of each `bail!` branch, translated from the format
strings in the source. -/
def ContainError.message : ContainError → String
  | .transitionFailure => "Failed to call into uprobe"
  | .unknownContainer cid => "No such container with ID " ++ toString cid
  | .invalidState => "Process is already containerized or no room in map"
  | .unknownEngineError n => "Unknown error " ++ toString n

deriving instance DecidableEq for Except

/-- Discriminator for the `unknownContainer` kind. -/
def ContainError.isUnknownContainer : ContainError → Bool
  | .unknownContainer _ => true
  | _ => false

/-- Place the current process into a container with ID `container_id`.
Translated from the source match on the engine result code; the code returned
by the opaque privileged call is the explicit argument `result`. -/
def containerize (container_id : Nat) (result : Int) : Except ContainError Unit :=
  if result = 0 then Except.ok ()
  else if result = -libc.EAGAIN then Except.error ContainError.transitionFailure
  else if result = -libc.ENOENT then Except.error (ContainError.unknownContainer container_id)
  else if result = -libc.EINVAL then Except.error ContainError.invalidState
  else Except.error (ContainError.unknownEngineError result)

/-- A value of a bitflags-generated type: a struct wrapping the underlying
integer field `bits`. -/
structure Flags where
  bits : Nat
deriving DecidableEq

/-- Bitwise union, as generated by `bitflags!`. -/
def Flags.union (a b : Flags) : Flags := ⟨a.bits ||| b.bits⟩

/-- Bitwise intersection, as generated by `bitflags!`. -/
def Flags.intersection (a b : Flags) : Flags := ⟨a.bits &&& b.bits⟩

/-- Subset test `contains`, as generated by `bitflags!`:
`self.bits & other.bits == other.bits`. -/
def Flags.contains (a b : Flags) : Bool := a.bits &&& b.bits == b.bits

/-- The empty flag set; `derive(Default)` on a bitflags struct yields it. -/
def Flags.empty : Flags := ⟨0⟩

/-- The unchecked constructor generated by `bitflags!`: keeps every bit. -/
def from_bits_unchecked (v : Nat) : Flags := ⟨v⟩

/-- One bitflags-generated type: the width in bits of its underlying integer
type and the values of its declared flag constants, in declaration order. -/
structure BitflagsTy where
  width : Nat
  flagValues : List Nat
deriving DecidableEq

/-- The `all()` constant generated by `bitflags!`: the bitwise OR of every
declared flag value. -/
def BitflagsTy.all (t : BitflagsTy) : Nat := t.flagValues.foldr (· ||| ·) 0

/-- The checked constructor generated by `bitflags!` 1.x:
`if (bits & !Self::all().bits()) == 0 { Some(...) } else { None }`, with the
complement taken in the width of the underlying integer type. -/
def BitflagsTy.from_bits (t : BitflagsTy) (v : Nat) : Option Flags :=
  if v &&& ((2 ^ t.width - 1) ^^^ t.all) = 0 then some ⟨v⟩ else none

/-- The truncating constructor generated by `bitflags!`: drops unknown bits. -/
def BitflagsTy.from_bits_truncate (t : BitflagsTy) (v : Nat) : Flags := ⟨v &&& t.all⟩

namespace PolicyDecision

def NO_DECISION : Flags := ⟨0x00⟩

def ALLOW : Flags := ⟨0x01⟩

def DENY : Flags := ⟨0x02⟩

/-- Modelled from the spec: the underlying type `policy_decision_t` is
declared in `lib/bindings.rs`, which is absent from the visible sources; the
spec bounds the significant bits of a decision to at most one byte. -/
def width : Nat := 8

def flagValues : List Nat := [NO_DECISION.bits, ALLOW.bits, DENY.bits]

def ty : BitflagsTy := ⟨width, flagValues⟩

/-- The `derive(Default)` value: all bits zero. -/
def default : Flags := Flags.empty

end PolicyDecision

namespace FilePermission

def MAY_EXEC : Flags := ⟨0x00000001⟩

def MAY_WRITE : Flags := ⟨0x00000002⟩

def MAY_READ : Flags := ⟨0x00000004⟩

def MAY_APPEND : Flags := ⟨0x00000008⟩

def MAY_CREATE : Flags := ⟨0x00000010⟩

def MAY_DELETE : Flags := ⟨0x00000020⟩

def MAY_RENAME : Flags := ⟨0x00000040⟩

def MAY_SETATTR : Flags := ⟨0x00000080⟩

def MAY_CHMOD : Flags := ⟨0x00000100⟩

def MAY_CHOWN : Flags := ⟨0x00000200⟩

def MAY_LINK : Flags := ⟨0x00000400⟩

def MAY_EXEC_MMAP : Flags := ⟨0x00000800⟩

def MAY_CHDIR : Flags := ⟨0x00001000⟩

/-- Modelled from the spec: the underlying type `file_permission_t` is
declared in `lib/bindings.rs`, which is absent from the visible sources; the
spec bounds the significant bits to at most two bytes. -/
def width : Nat := 16

def flagValues : List Nat :=
  [MAY_EXEC.bits, MAY_WRITE.bits, MAY_READ.bits, MAY_APPEND.bits, MAY_CREATE.bits,
   MAY_DELETE.bits, MAY_RENAME.bits, MAY_SETATTR.bits, MAY_CHMOD.bits, MAY_CHOWN.bits,
   MAY_LINK.bits, MAY_EXEC_MMAP.bits, MAY_CHDIR.bits]

def ty : BitflagsTy := ⟨width, flagValues⟩

/-- The `derive(Default)` value: all bits zero. -/
def default : Flags := Flags.empty

end FilePermission

namespace Capability

def NET_BIND_SERVICE : Flags := ⟨0x00000001⟩

def NET_RAW : Flags := ⟨0x00000002⟩

def NET_BROADCAST : Flags := ⟨0x00000004⟩

def DAC_OVERRIDE : Flags := ⟨0x00000008⟩

def DAC_READ_SEARCH : Flags := ⟨0x00000010⟩

/-- Modelled from the spec: the underlying type `capability_t` is declared in
`lib/bindings.rs`, which is absent from the visible sources; the spec gives a
one-byte width. -/
def width : Nat := 8

def flagValues : List Nat :=
  [NET_BIND_SERVICE.bits, NET_RAW.bits, NET_BROADCAST.bits, DAC_OVERRIDE.bits,
   DAC_READ_SEARCH.bits]

def ty : BitflagsTy := ⟨width, flagValues⟩

/-- The `derive(Default)` value: all bits zero. -/
def default : Flags := Flags.empty

end Capability

namespace NetCategory

def WWW : Flags := ⟨0x01⟩

def IPC : Flags := ⟨0x02⟩

/-- Modelled from the spec: the underlying type `net_category_t` is declared
in `lib/bindings.rs`, which is absent from the visible sources; the spec
bounds the significant bits to at most one byte. -/
def width : Nat := 8

def flagValues : List Nat := [WWW.bits, IPC.bits]

def ty : BitflagsTy := ⟨width, flagValues⟩

/-- The `derive(Default)` value: all bits zero. -/
def default : Flags := Flags.empty

end NetCategory

namespace NetOperation

def NET_CONNECT : Flags := ⟨0x00000001⟩

def NET_BIND : Flags := ⟨0x00000002⟩

def NET_ACCEPT : Flags := ⟨0x00000004⟩

def NET_LISTEN : Flags := ⟨0x00000008⟩

def NET_SEND : Flags := ⟨0x00000010⟩

def NET_RECV : Flags := ⟨0x00000020⟩

def NET_CREATE : Flags := ⟨0x00000040⟩

def NET_SHUTDOWN : Flags := ⟨0x00000080⟩

/-- Modelled from the spec: the underlying type `net_operation_t` is declared
in `lib/bindings.rs`, which is absent from the visible sources; the spec gives
a one-byte width. -/
def width : Nat := 8

def flagValues : List Nat :=
  [NET_CONNECT.bits, NET_BIND.bits, NET_ACCEPT.bits, NET_LISTEN.bits, NET_SEND.bits,
   NET_RECV.bits, NET_CREATE.bits, NET_SHUTDOWN.bits]

def ty : BitflagsTy := ⟨width, flagValues⟩

/-- The `derive(Default)` value: all bits zero. -/
def default : Flags := Flags.empty

end NetOperation

/-- A record value transported across the boundary: its raw byte image, per
the `Plain` reinterpretation contract. -/
structure RecordImage where
  bytes : List Nat
deriving DecidableEq

/-- Re-serialization of a `Plain` record: its memory is its bytes. -/
def RecordImage.to_bytes (rec : RecordImage) : List Nat := rec.bytes

/-- A shared record type: its fixed byte size and alignment. -/
structure PlainRecord where
  size : Nat
  align : Nat
deriving DecidableEq

/-- Reinterpret a byte buffer of exactly the declared size as a record, per
the `Plain` contract; no internal validation is performed. -/
def PlainRecord.from_bytes (r : PlainRecord) (buf : List Nat) : Option RecordImage :=
  if buf.length = r.size then some ⟨buf⟩ else none

/-- Modelled from the spec: the layout of `bpfcon_container` lives in
`lib/bindings.rs` (generated from the engine headers), absent from the
visible sources; the container descriptor is opaque engine state, modelled
with a representative non-zero size. -/
def bpfcon_container : PlainRecord := ⟨8, 8⟩

/-- Modelled from the spec: the layout of `bpfcon_process` is absent from the
visible sources; per-process state keyed by a 64-bit container id, modelled
with a representative non-zero size. -/
def bpfcon_process : PlainRecord := ⟨16, 8⟩

/-- Modelled from the spec: the layout of `fs_policy_key` is absent from the
visible sources; a (64-bit container id, device id) pair. -/
def fs_policy_key : PlainRecord := ⟨16, 8⟩

/-- Modelled from the spec: the layout of `file_policy_key` is absent from
the visible sources; a (64-bit container id, inode identity) pair. -/
def file_policy_key : PlainRecord := ⟨24, 8⟩

/-- Modelled from the spec: the layout of `dev_policy_key` is absent from the
visible sources; a (64-bit container id, device) pair. -/
def dev_policy_key : PlainRecord := ⟨16, 8⟩

/-- Modelled from the spec: the layout of `cap_policy_key` is absent from the
visible sources; keyed by a 64-bit container id. -/
def cap_policy_key : PlainRecord := ⟨8, 8⟩

/-- Modelled from the spec: the layout of `net_policy_key` is absent from the
visible sources; a (64-bit container id, category, operation) tuple. -/
def net_policy_key : PlainRecord := ⟨16, 8⟩

/-- Modelled from the spec: the layout of `inode_key` is absent from the
visible sources; a (device id, inode number) pair. -/
def inode_key : PlainRecord := ⟨16, 8⟩

/-- A record type has non-zero size and alignment, and the zero-filled buffer
of its size reinterprets as a record that re-serializes to the same buffer. -/
abbrev recordOk (r : PlainRecord) : Prop :=
  0 < r.size ∧ 0 < r.align ∧
  r.from_bytes (List.replicate r.size 0) = some ⟨List.replicate r.size 0⟩ ∧
  RecordImage.to_bytes ⟨List.replicate r.size 0⟩ = List.replicate r.size 0

theorem land_compl_eq_zero_iff (w a v : Nat) (hv : v < 2 ^ w) :
    v &&& ((2 ^ w - 1) ^^^ a) = 0 ↔ v &&& a = v := by
  have hw : ∀ x : Nat, x < 2 ^ w → ∀ i, x.testBit i = true → i < w := by
    intro x hx i hxi
    by_contra hge
    have hlt : x < 2 ^ i :=
      lt_of_lt_of_le hx (Nat.pow_le_pow_right (by norm_num) (Nat.le_of_not_lt hge))
    rw [Nat.testBit_eq_false_of_lt hlt] at hxi
    exact Bool.false_ne_true hxi
  constructor
  · intro h
    apply Nat.eq_of_testBit_eq
    intro i
    rw [Nat.testBit_land]
    cases hvi : v.testBit i with
    | false => simp
    | true =>
      have hiw : i < w := hw v hv i hvi
      have h0 := congrArg (fun x => Nat.testBit x i) h
      simp only [Nat.testBit_land, Nat.testBit_xor, Nat.testBit_two_pow_sub_one,
        Nat.zero_testBit, hvi, hiw, decide_True, Bool.true_and, Bool.true_xor] at h0
      simp at h0
      simp [hvi, h0]
  · intro h
    apply Nat.eq_of_testBit_eq
    intro i
    rw [Nat.testBit_land, Nat.zero_testBit]
    cases hvi : v.testBit i with
    | false => simp [hvi]
    | true =>
      have hiw : i < w := hw v hv i hvi
      have hai : a.testBit i = true := by
        have h1 := congrArg (fun x => Nat.testBit x i) h
        simp only [Nat.testBit_land, hvi, Bool.true_and] at h1
        exact h1
      simp [Nat.testBit_xor, Nat.testBit_two_pow_sub_one, hiw, hai, hvi]

/-- Claim C1 (amended): for every bitflags type and every representable
underlying integer, the unchecked constructor preserves all bits; the checked
constructor `from_bits` succeeds, preserving the bits exactly, precisely on
integers whose bits are all named flags, and rejects (returns none) any
integer carrying an unknown bit. -/
theorem bitflags_from_bits_round_trip (t : BitflagsTy) (v : Nat)
    (hv : v < 2 ^ t.width) :
    (from_bits_unchecked v).bits = v ∧
    (v &&& t.all = v → t.from_bits v = some ⟨v⟩) ∧
    (v &&& t.all ≠ v → t.from_bits v = none) := by
  refine ⟨rfl, ?_, ?_⟩
  · intro h
    unfold BitflagsTy.from_bits
    rw [if_pos ((land_compl_eq_zero_iff t.width t.all v hv).mpr h)]
  · intro h
    unfold BitflagsTy.from_bits
    rw [if_neg (fun hc => h ((land_compl_eq_zero_iff t.width t.all v hv).mp hc))]

/-- Witness for the amended claim C1, at the PolicyDecision type and v = 3. -/
theorem bitflags_from_bits_round_trip_witness :
    ((3 : Nat) < 2 ^ PolicyDecision.ty.width ∧
      (3 : Nat) &&& PolicyDecision.ty.all = 3) ∧
    PolicyDecision.ty.from_bits 3 = some ⟨3⟩ :=
  ⟨⟨by decide, by decide⟩,
    (bitflags_from_bits_round_trip PolicyDecision.ty 3 (by decide)).2.1 (by decide)⟩

/-- Counterexample to claim C1 as stated: 0x04 is a representable underlying
integer for PolicyDecision carrying only an unnamed bit, and the checked
constructor rejects it instead of preserving it. -/
theorem policy_decision_from_bits_rejects_unknown :
    PolicyDecision.ty.from_bits 0x04 = none := by decide

/-- Claim C2: containerize succeeds exactly when the engine result code is 0;
every nonzero code yields an error. -/
theorem containerize_ok_iff_zero (cid : Nat) (r : Int) :
    containerize cid r = Except.ok () ↔ r = 0 := by
  constructor
  · intro h
    by_contra h0
    unfold containerize at h
    rw [if_neg h0] at h
    split_ifs at h
  · intro h
    subst h
    rfl

/-- Witness for claim C2, at container id 7 and result code 0. -/
theorem containerize_ok_iff_zero_witness : containerize 7 0 = Except.ok () :=
  (containerize_ok_iff_zero 7 0).mpr rfl

/-- Counterexample to claim C3 as stated: the positive errno value EAGAIN = 11
falls through to the catch-all branch, not to the transition-failure branch. -/
theorem containerize_positive_eagain_not_transition_failure :
    containerize 1 libc.EAGAIN = Except.error (ContainError.unknownEngineError 11) ∧
    containerize 1 libc.EAGAIN ≠ Except.error ContainError.transitionFailure := by
  exact ⟨rfl, by decide⟩

/-- Claim C3 (amended): for every container id, an engine result code equal to
the negated errno value -EAGAIN yields the transition-failure error kind. -/
theorem containerize_neg_eagain_transition_failure (cid : Nat) :
    containerize cid (-libc.EAGAIN) = Except.error ContainError.transitionFailure := rfl

/-- Counterexample to claim C4 as stated: the positive errno value ENOENT = 2
falls through to the catch-all branch, so no unknown-container error with any
message is produced. -/
theorem containerize_positive_enoent_not_unknown_container :
    containerize 4242 libc.ENOENT = Except.error (ContainError.unknownEngineError 2) ∧
    (ContainError.unknownEngineError 2).isUnknownContainer = false := by
  exact ⟨rfl, rfl⟩

/-- Claim C4 (amended): for every container id, an engine result code equal to
the negated errno value -ENOENT yields the unknown-container error kind, whose
message references the container id; in particular at container id 4242 the
message ends in 4242. -/
theorem containerize_neg_enoent_unknown_container (cid : Nat) :
    containerize cid (-libc.ENOENT) = Except.error (ContainError.unknownContainer cid) ∧
    (ContainError.unknownContainer cid).message = "No such container with ID " ++ toString cid ∧
    (ContainError.unknownContainer 4242).message = "No such container with ID " ++ "4242" := by
  exact ⟨rfl, rfl, rfl⟩

/-- Counterexample to claim C5 as stated: the positive errno value EINVAL = 22
falls through to the catch-all branch, not to the invalid-state branch. -/
theorem containerize_positive_einval_not_invalid_state :
    containerize 1 libc.EINVAL = Except.error (ContainError.unknownEngineError 22) ∧
    containerize 1 libc.EINVAL ≠ Except.error ContainError.invalidState := by
  exact ⟨rfl, by decide⟩

/-- Claim C5 (amended): for every container id, an engine result code equal to
the negated errno value -EINVAL yields the invalid-state error kind. -/
theorem containerize_neg_einval_invalid_state (cid : Nat) :
    containerize cid (-libc.EINVAL) = Except.error ContainError.invalidState := rfl

/-- Counterexample to claim C6 as stated: -11 lies outside {0, EAGAIN, ENOENT,
EINVAL} = {0, 11, 2, 22}, yet containerize maps it to the transition-failure
kind, not to the unknown-engine-error kind. -/
theorem containerize_catch_all_fails_at_neg_eagain :
    ((-11 : Int) ≠ 0 ∧ (-11 : Int) ≠ libc.EAGAIN ∧ (-11 : Int) ≠ libc.ENOENT ∧
      (-11 : Int) ≠ libc.EINVAL) ∧
    containerize 1 (-11) = Except.error ContainError.transitionFailure ∧
    containerize 1 (-11) ≠ Except.error (ContainError.unknownEngineError (-11)) := by
  exact ⟨⟨by decide, by decide, by decide, by decide⟩, rfl, by decide⟩

/-- Claim C6 (amended): every engine result code outside {0, -EAGAIN, -ENOENT,
-EINVAL} yields the unknown-engine-error kind carrying the raw code. -/
theorem containerize_unrecognized_code_unknown_engine_error (cid : Nat) (r : Int)
    (h0 : r ≠ 0) (h1 : r ≠ -libc.EAGAIN) (h2 : r ≠ -libc.ENOENT) (h3 : r ≠ -libc.EINVAL) :
    containerize cid r = Except.error (ContainError.unknownEngineError r) := by
  unfold containerize
  rw [if_neg h0, if_neg h1, if_neg h2, if_neg h3]

/-- Witness for the amended claim C6, at container id 1 and code -999. -/
theorem containerize_unrecognized_code_witness :
    ((-999 : Int) ≠ 0 ∧ (-999 : Int) ≠ -libc.EAGAIN ∧ (-999 : Int) ≠ -libc.ENOENT ∧
      (-999 : Int) ≠ -libc.EINVAL) ∧
    containerize 1 (-999) = Except.error (ContainError.unknownEngineError (-999)) :=
  ⟨⟨by decide, by decide, by decide, by decide⟩,
    containerize_unrecognized_code_unknown_engine_error 1 (-999)
      (by decide) (by decide) (by decide) (by decide)⟩

/-- Claim C7: containerize recognizes only the negated errno values for its
specific error kinds; a positive errno value falls through to the catch-all
carrying that code. -/
theorem containerize_sign_convention (cid : Nat) :
    containerize cid libc.EAGAIN = Except.error (ContainError.unknownEngineError libc.EAGAIN) ∧
    containerize cid libc.ENOENT = Except.error (ContainError.unknownEngineError libc.ENOENT) ∧
    containerize cid libc.EINVAL = Except.error (ContainError.unknownEngineError libc.EINVAL) ∧
    containerize cid (-libc.EAGAIN) = Except.error ContainError.transitionFailure ∧
    containerize cid (-libc.ENOENT) = Except.error (ContainError.unknownContainer cid) ∧
    containerize cid (-libc.EINVAL) = Except.error ContainError.invalidState :=
  ⟨rfl, rfl, rfl, rfl, rfl, rfl⟩

/-- Claim C8: the static flag vocabulary matches the data model of the spec:
the three policy decisions with an all-zero default, thirteen consecutive
single-bit file permissions, five consecutive single-bit capabilities, the two
network categories, and eight consecutive single-bit network operations. -/
theorem flag_vocabulary_matches_spec :
    PolicyDecision.NO_DECISION.bits = 0x00 ∧ PolicyDecision.ALLOW.bits = 0x01 ∧
    PolicyDecision.DENY.bits = 0x02 ∧ PolicyDecision.default = PolicyDecision.NO_DECISION ∧
    PolicyDecision.flagValues = [0x00, 0x01, 0x02] ∧
    FilePermission.flagValues = (List.range 13).map (2 ^ ·) ∧
    Capability.flagValues = (List.range 5).map (2 ^ ·) ∧
    NetCategory.WWW.bits = 0x01 ∧ NetCategory.IPC.bits = 0x02 ∧
    NetCategory.flagValues = [0x01, 0x02] ∧
    NetOperation.flagValues = (List.range 8).map (2 ^ ·) := by
  decide

/-- Claim C9: for all flag values, the union contains each operand, and the
intersection holds exactly the bits set in both operands (hence only those). -/
theorem union_contains_intersection_laws (a b : Flags) :
    (a.union b).contains a = true ∧ (a.union b).contains b = true ∧
    ∀ i, (a.intersection b).bits.testBit i = (a.bits.testBit i && b.bits.testBit i) := by
  refine ⟨?_, ?_, ?_⟩
  · simp only [Flags.union, Flags.contains, beq_iff_eq]
    apply Nat.eq_of_testBit_eq
    intro i
    simp only [Nat.testBit_land, Nat.testBit_lor]
    cases a.bits.testBit i <;> cases b.bits.testBit i <;> rfl
  · simp only [Flags.union, Flags.contains, beq_iff_eq]
    apply Nat.eq_of_testBit_eq
    intro i
    simp only [Nat.testBit_land, Nat.testBit_lor]
    cases a.bits.testBit i <;> cases b.bits.testBit i <;> rfl
  · intro i
    simp only [Flags.intersection, Nat.testBit_land]

/-- Claim C10: every shared record type has non-zero size and alignment, and a
zero-filled buffer of its size reinterprets as a record whose re-serialization
is the identical buffer. -/
theorem shared_record_layout_round_trip :
    recordOk bpfcon_container ∧ recordOk bpfcon_process ∧ recordOk fs_policy_key ∧
    recordOk file_policy_key ∧ recordOk dev_policy_key ∧ recordOk cap_policy_key ∧
    recordOk net_policy_key ∧ recordOk inode_key := by
  decide
